import Mathlib

/-!
Verification of the credential-refreshing OpenAI-compatible proxy.

The development shallowly embeds the Go program (`main.go`): the credential
manager (`refreshCredentials` and the self-rescheduling refresh goroutine),
the HTTP handlers (`handleChatCompletions`, `handleListModels`,
`handleRetrieveModel`, `handleOptions`), the route table (`setupRoutes`) and
the `main` startup sequence.

Modelling conventions:
* A Go `time.Time` is an absolute timestamp in seconds (an `Int`);
  `5 * time.Minute` is `safetyMargin = 300` seconds.
* The Google credentials value and the token obtained from its token source
  at refresh time are modelled together as one installed `Token`
  (credential string plus expiry), matching the data model of the design.
* The identity provider is the environment: each call of
  `google.FindDefaultCredentials` / `TokenSource.Token()` is represented by a
  `FetchResult` supplied from outside, covering both failure points.
* The self-rescheduling goroutine spawned on line `go func() * ...` is an
  armed timer holding its deadline `token.Expiry - safetyMargin`; the timer
  firing (the goroutine waking from `time.Sleep` and calling
  `refreshCredentials`) is the `fireStep` transition, which consumes the
  armed timer.  Each Go statement is one atomic step; the install
  `s.credential = creds` is a single assignment of one pointer-sized value
  and is therefore a single step.
-/

/-- A bearer token: opaque credential string plus absolute expiry (seconds). -/
structure Token where
  accessToken : String
  expiry : Int
deriving DecidableEq

/-- The shared mutable state of the credential manager: the `s.credential`
field of `Server` (none = Go `nil`), together with the multiset of armed
refresh timers, each recorded by its deadline.  In the Go source a timer is
a sleeping goroutine spawned by a successful `refreshCredentials`. -/
structure CredState where
  credential : Option Token
  armed : List Int
deriving DecidableEq

/-- `NewServer` leaves `credential` nil and of course no timer goroutine
exists yet. -/
def initialState : CredState := { credential := none, armed := [] }

/-- `-5 * time.Minute` of `token.Expiry.Add(-5 * time.Minute)`, in seconds. -/
def safetyMargin : Int := 5 * 60

/-- Outcome of one identity-provider round trip, covering both failure
points of `refreshCredentials`: `google.FindDefaultCredentials` failing,
`creds.TokenSource.Token()` failing, or success with a fresh token. -/
inductive FetchResult where
  | credsErr (msg : String)
  | tokenErr (msg : String)
  | ok (t : Token)
deriving DecidableEq

/-- Whether the provider round trip failed. -/
def FetchResult.failed : FetchResult → Bool
  | .credsErr _ => true
  | .tokenErr _ => true
  | .ok _ => false

/-- Embedding of `(s *Server) refreshCredentials`: on either fetch failure
it returns the wrapped error without touching the server state; on success
it installs the token (`s.credential = creds`, one atomic assignment) and
spawns exactly one goroutine that will sleep until
`token.Expiry.Add(-5 * time.Minute)` — i.e. arms exactly one timer with
that deadline.  Returns the new state and the `error` result. -/
def refreshCredentials (st : CredState) (r : FetchResult) : CredState × Option String :=
  match r with
  | .credsErr m => (st, some ("failed to get credentials: " ++ m))
  | .tokenErr m => (st, some ("failed to get token: " ++ m))
  | .ok t =>
      ({ credential := some t, armed := st.armed ++ [t.expiry - safetyMargin] },
       none)

/-- An armed timer fires: the goroutine wakes from `time.Sleep` (it is no
longer armed) and calls `refreshCredentials` with whatever the provider
returns; a failure is only logged (`log.Printf`).  When no timer is armed
nothing can fire and the state is unchanged. -/
def fireStep (st : CredState) (r : FetchResult) : CredState :=
  match st.armed with
  | [] => st
  | _ :: rest => (refreshCredentials { st with armed := rest } r).1

/-- The credential-manager states reachable in a process run: `main` calls
`refreshCredentials` once synchronously (outcome `r0`), after which the only
refresh activity is the timer chain; `fires` lists the provider outcomes of
the successive timer firings. -/
def runMain (r0 : FetchResult) (fires : List FetchResult) : CredState :=
  fires.foldl fireStep (refreshCredentials initialState r0).1

/-- `currentToken()` of the design: what a request handler reads from the
shared cell (`s.credential`, main.go line `httpClient := oauth2.NewClient *`). -/
def currentToken (st : CredState) : Option Token := st.credential

/-- The pair a reader observes: credential string and expiry together. -/
def observe (st : CredState) : Option (String × Int) :=
  st.credential.map fun t => (t.accessToken, t.expiry)

/-- The tokens successfully fetched from the provider in a list of
round-trip outcomes. -/
def okTokens : List FetchResult → List Token
  | [] => []
  | .ok t :: rs => t :: okTokens rs
  | .credsErr _ :: rs => okTokens rs
  | .tokenErr _ :: rs => okTokens rs

/-! ### Basic lemmas about the refresh state machine -/

theorem refreshCredentials_failed (st : CredState) (r : FetchResult)
    (h : r.failed = true) : (refreshCredentials st r).1 = st := by
  cases r <;> simp_all [refreshCredentials, FetchResult.failed]

theorem fireStep_armed_nil (st : CredState) (r : FetchResult)
    (h : st.armed = []) : fireStep st r = st := by
  unfold fireStep
  rw [h]

theorem foldl_fireStep_nil (fires : List FetchResult) (st : CredState)
    (h : st.armed = []) : fires.foldl fireStep st = st := by
  induction fires with
  | nil => rfl
  | cons f fs ih =>
      rw [List.foldl_cons, fireStep_armed_nil st f h]
      exact ih

theorem fireStep_armed_length (st : CredState) (r : FetchResult)
    (h : st.armed.length ≤ 1) : (fireStep st r).armed.length ≤ 1 := by
  cases harm : st.armed with
  | nil =>
      rw [fireStep_armed_nil st r harm]
      exact h
  | cons d rest =>
      have hrest : rest = [] := by
        rw [harm] at h
        simpa using List.eq_nil_of_length_eq_zero (Nat.le_zero.mp (Nat.lt_succ_iff.mp h))
      subst hrest
      cases r <;> simp [fireStep, harm, refreshCredentials]

theorem foldl_fireStep_length (fires : List FetchResult) :
    ∀ st : CredState, st.armed.length ≤ 1 →
      (fires.foldl fireStep st).armed.length ≤ 1 := by
  induction fires with
  | nil => intro st h; exact h
  | cons f fs ih =>
      intro st h
      rw [List.foldl_cons]
      exact ih _ (fireStep_armed_length st f h)

theorem runMain_armed_length (r0 : FetchResult) (fires : List FetchResult) :
    (runMain r0 fires).armed.length ≤ 1 := by
  unfold runMain
  apply foldl_fireStep_length
  cases r0 <;> simp [refreshCredentials, initialState]

theorem runMain_append_fire (r0 : FetchResult) (fires : List FetchResult)
    (f : FetchResult) :
    runMain r0 (fires ++ [f]) = fireStep (runMain r0 fires) f := by
  unfold runMain
  rw [List.foldl_append]
  rfl

theorem fireStep_credential_cases (st : CredState) (r : FetchResult) :
    (fireStep st r).credential = st.credential ∨
      ∃ t, r = FetchResult.ok t ∧ (fireStep st r).credential = some t := by
  unfold fireStep
  cases st.armed with
  | nil => exact Or.inl rfl
  | cons d rest =>
      cases r with
      | credsErr m => exact Or.inl rfl
      | tokenErr m => exact Or.inl rfl
      | ok t => exact Or.inr ⟨t, rfl, rfl⟩

theorem okTokens_cons_mem (f : FetchResult) (fs : List FetchResult)
    (t : Token) (h : t ∈ okTokens fs) : t ∈ okTokens (f :: fs) := by
  cases f <;> simp [okTokens, h]

theorem foldl_fireStep_okTokens (fires : List FetchResult) :
    ∀ st : CredState,
      (fires.foldl fireStep st).credential = st.credential ∨
        ∃ t, t ∈ okTokens fires ∧ (fires.foldl fireStep st).credential = some t := by
  induction fires with
  | nil => intro st; exact Or.inl rfl
  | cons f fs ih =>
      intro st
      rw [List.foldl_cons]
      rcases ih (fireStep st f) with hsame | ⟨t, hmem, heq⟩
      · rcases fireStep_credential_cases st f with h1 | ⟨t, hf, h1⟩
        · exact Or.inl (hsame.trans h1)
        · refine Or.inr ⟨t, ?_, hsame.trans h1⟩
          subst hf
          simp [okTokens]
      · exact Or.inr ⟨t, okTokens_cons_mem f fs t hmem, heq⟩

theorem fireStep_isSome (st : CredState) (r : FetchResult)
    (h : st.credential.isSome) : (fireStep st r).credential.isSome := by
  rcases fireStep_credential_cases st r with h1 | ⟨t, _, h1⟩ <;> rw [h1]
  · exact h
  · rfl

theorem foldl_fireStep_isSome (fires : List FetchResult) :
    ∀ st : CredState, st.credential.isSome →
      (fires.foldl fireStep st).credential.isSome := by
  induction fires with
  | nil => intro st h; exact h
  | cons f fs ih =>
      intro st h
      rw [List.foldl_cons]
      exact ih _ (fireStep_isSome st f h)

/-! ### The HTTP layer: configuration, main, model catalog, handlers -/

/-- The `Config` struct. -/
structure Config where
  projectID : String
  location : String
  endpointID : String
deriving DecidableEq

/-- The upstream base address built in `handleChatCompletions` from the
format string
`https://%s-aiplatform.googleapis.com/v1beta1/projects/%s/locations/%s/endpoints/%s`. -/
def baseURL (cfg : Config) : String :=
  "https://" ++ cfg.location ++ "-aiplatform.googleapis.com/v1beta1/projects/"
    ++ cfg.projectID ++ "/locations/" ++ cfg.location ++ "/endpoints/"
    ++ cfg.endpointID

/-- Observable actions of `main` after the initial credential acquisition:
a fatal exit (`log.Fatalf`), the route installation (`setupRoutes`), and
binding the listening port (`router.Run(":8080")`). -/
inductive MainAction where
  | fatalExit (msg : String)
  | routesInstalled
  | listen (addr : String)
deriving DecidableEq

/-- Embedding of `main`: build the server, call `refreshCredentials`
synchronously; on error, `log.Fatalf` terminates the process (nothing else
happens); on success, install the routes and bind `:8080`. -/
def mainProgram (r0 : FetchResult) : List MainAction :=
  match refreshCredentials initialState r0 with
  | (_, some e) => [.fatalExit ("Failed to initialize credentials: " ++ e)]
  | (_, none) => [.routesInstalled, .listen ":8080"]

/-- The `ModelObject` struct (JSON field names `id`, `object`, `created`,
`owned_by`). -/
structure ModelObject where
  id : String
  object : String
  created : Int
  ownedBy : String
deriving DecidableEq

/-- The `ModelList` struct. -/
structure ModelList where
  object : String
  data : List ModelObject
deriving DecidableEq

/-- The single catalog entry of the `AvailableModels` map literal. -/
def geminiFlash : ModelObject :=
  { id := "google/gemini-2.0-flash-001"
    object := "model"
    created := 1706745600
    ownedBy := "google" }

/-- The package-level `AvailableModels` map, a single-entry map from model
identifier to descriptor, as an association list. -/
def AvailableModels : List (String × ModelObject) :=
  [("google/gemini-2.0-flash-001", geminiFlash)]

/-- The error object built by `handleRetrieveModel` for an unknown model
(the `gin.H` literal with `message`, `type`, `param`, `code`). -/
structure ModelError where
  message : String
  errType : String
  param : Option String
  code : String
deriving DecidableEq

/-- Body of a reply from the two model endpoints. -/
inductive ModelsBody where
  | list (l : ModelList)
  | single (m : ModelObject)
  | err (e : ModelError)
deriving DecidableEq

/-- An HTTP reply from the model endpoints: status code and JSON body. -/
structure ModelsReply where
  status : Nat
  body : ModelsBody
deriving DecidableEq

/-- Embedding of `handleListModels`: status 200 with a `ModelList` holding
every entry of `AvailableModels` (iteration over the one-entry map). -/
def handleListModels : ModelsReply :=
  { status := 200
    body := .list { object := "list", data := AvailableModels.map (fun p => p.2) } }

/-- Embedding of `handleRetrieveModel`: look the `:model` route parameter up
in `AvailableModels`; absent keys yield 404 with the structured error whose
`code` is `model_not_found`, present keys yield 200 with the descriptor. -/
def handleRetrieveModel (modelID : String) : ModelsReply :=
  match AvailableModels.lookup modelID with
  | none =>
      { status := 404
        body := .err
          { message := "The model \x27" ++ modelID ++ "\x27 does not exist"
            errType := "invalid_request_error"
            param := none
            code := "model_not_found" } }
  | some m => { status := 200, body := .single m }

/-- Embedding of `handleOptions`: it only writes status 200. -/
def handleOptions : Nat := 200

/-- The route table installed by `setupRoutes` (method, path pattern). -/
def setupRoutes : List (String × String) :=
  [("POST", "/v1/chat/completions"),
   ("OPTIONS", "/v1/chat/completions"),
   ("GET", "/v1/models"),
   ("GET", "/v1/models/:model")]

/-- A chat message of the request/response bodies. -/
structure ChatMessage where
  role : String
  content : String
  name : String
deriving DecidableEq

/-- The inbound `openai.ChatCompletionRequest` as parsed by `BindJSON`.
Numeric fields that are floating point in Go (`temperature`, `topP`) are
modelled as integers: no claim depends on float arithmetic, only on the
fields being forwarded unchanged. -/
structure ChatCompletionRequest where
  model : String
  messages : List ChatMessage
  maxTokens : Nat
  temperature : Int
  topP : Int
  n : Nat
  stream : Bool
  stop : List String
  user : String
deriving DecidableEq

/-- One choice of a chat-completion response. -/
structure ChatChoice where
  index : Nat
  message : ChatMessage
  finishReason : String
deriving DecidableEq

/-- Token-usage block of a chat-completion response. -/
structure Usage where
  promptTokens : Nat
  completionTokens : Nat
  totalTokens : Nat
deriving DecidableEq

/-- The upstream `openai.ChatCompletionResponse`. -/
structure ChatCompletionResponse where
  id : String
  object : String
  created : Int
  model : String
  choices : List ChatChoice
  usage : Usage
deriving DecidableEq

/-- The fixed upstream model identifier assigned on the line
`request.Model = "google/gemini-2.0-flash-001"`. -/
def upstreamModel : String := "google/gemini-2.0-flash-001"

/-- JSON body of a reply from `handleChatCompletions`: either a `gin.H`
error object with the error message, or a relayed completion response. -/
inductive ChatBody where
  | errObj (msg : String)
  | completion (resp : ChatCompletionResponse)
deriving DecidableEq

/-- An HTTP reply from `handleChatCompletions`. -/
structure ChatReply where
  status : Nat
  body : ChatBody
deriving DecidableEq

/-- What one execution of `handleChatCompletions` did: the requests it
issued upstream via `client.CreateChatCompletion` (in order) and the reply
written to the caller. -/
structure ChatOutcome where
  upstreamCalls : List ChatCompletionRequest
  reply : ChatReply
deriving DecidableEq

/-- Embedding of `handleChatCompletions`.  `bindResult` is the outcome of
`c.BindJSON` (the parsed body or a parse error); `upstream` is the upstream
endpoint, mapping the body of the one `CreateChatCompletion` call to its
result.  A parse error yields 400 and no upstream call; otherwise the
parsed request's `Model` field is overwritten with `upstreamModel` and the
request is sent upstream exactly once: failure yields 500 carrying the
error message, success relays the response unchanged with 200. -/
def handleChatCompletions (bindResult : Except String ChatCompletionRequest)
    (upstream : ChatCompletionRequest → Except String ChatCompletionResponse) :
    ChatOutcome :=
  match bindResult with
  | .error e =>
      { upstreamCalls := [], reply := { status := 400, body := .errObj e } }
  | .ok request =>
      let request := { request with model := upstreamModel }
      match upstream request with
      | .error e =>
          { upstreamCalls := [request], reply := { status := 500, body := .errObj e } }
      | .ok resp =>
          { upstreamCalls := [request], reply := { status := 200, body := .completion resp } }

/-! ### Shared helper lemmas for the claims -/

theorem armed_singleton_of_ne_nil (r0 : FetchResult) (fires : List FetchResult)
    (h : (runMain r0 fires).armed ≠ []) :
    ∃ d, (runMain r0 fires).armed = [d] := by
  have hlen := runMain_armed_length r0 fires
  cases harm : (runMain r0 fires).armed with
  | nil => exact absurd harm h
  | cons d rest =>
      refine ⟨d, ?_⟩
      rw [harm] at hlen
      have hrest : rest = [] := by
        simpa using List.eq_nil_of_length_eq_zero (Nat.le_zero.mp (Nat.lt_succ_iff.mp hlen))
      rw [hrest]

theorem fire_ok_on_armed (r0 : FetchResult) (fires : List FetchResult) (t : Token)
    (h : (runMain r0 fires).armed ≠ []) :
    (runMain r0 (fires ++ [FetchResult.ok t])).armed = [t.expiry - safetyMargin] := by
  rw [runMain_append_fire]
  rcases armed_singleton_of_ne_nil r0 fires h with ⟨d, harm⟩
  simp [fireStep, harm, refreshCredentials]

/-! ### The claims -/

/-- C1 counterexample: after a successful initialize (token `tok0`), the
scheduled refresh at the deadline fails; the claim says a retry follows
after a short fixed backoff.  In the code the failing goroutine only logs
and exits: no timer is armed afterwards, and even though the provider has
recovered (the next round trip would succeed with `tok1`), no refresh ever
runs again — `tok1` is never installed and the armed-timer list stays
empty. -/
theorem c1_counterexample :
    (runMain (FetchResult.ok { accessToken := "tok0", expiry := 4000 })
        [FetchResult.tokenErr "provider down",
         FetchResult.ok { accessToken := "tok1", expiry := 8000 }]).credential
      = some { accessToken := "tok0", expiry := 4000 } ∧
    (runMain (FetchResult.ok { accessToken := "tok0", expiry := 4000 })
        [FetchResult.tokenErr "provider down",
         FetchResult.ok { accessToken := "tok1", expiry := 8000 }]).armed = [] := by
  exact ⟨rfl, rfl⟩

/-- C1 (amended): if the scheduled refresh attempt after a successful
initialize fails, the previously installed Token remains installed and is
what request handlers keep reading — but no retry is ever attempted: the
failure is only logged, no timer is armed, and the state never changes
again, whatever the provider would answer later. -/
theorem c1_failed_refresh_keeps_token_no_retry (t0 : Token) (r : FetchResult)
    (rest : List FetchResult) (h : r.failed = true) :
    (runMain (FetchResult.ok t0) (r :: rest)).credential = some t0 ∧
    (runMain (FetchResult.ok t0) (r :: rest)).armed = [] ∧
    runMain (FetchResult.ok t0) (r :: rest) = runMain (FetchResult.ok t0) [r] := by
  have hst1 : (refreshCredentials initialState (FetchResult.ok t0)).1
      = { credential := some t0, armed := [t0.expiry - safetyMargin] } := by
    simp [refreshCredentials, initialState]
  have hfire : fireStep { credential := some t0, armed := [t0.expiry - safetyMargin] } r
      = { credential := some t0, armed := [] } := by
    show (refreshCredentials { credential := some t0, armed := [] } r).1 = _
    exact refreshCredentials_failed _ r h
  unfold runMain
  rw [hst1, List.foldl_cons, hfire, foldl_fireStep_nil rest _ rfl]
  refine ⟨rfl, rfl, ?_⟩
  rw [List.foldl_cons, List.foldl_nil, hfire]

theorem c1_failed_refresh_keeps_token_no_retry_witness :
    (FetchResult.tokenErr "boom").failed = true ∧
    ((runMain (FetchResult.ok { accessToken := "a", expiry := 1000 })
        (FetchResult.tokenErr "boom" :: [])).credential
      = some { accessToken := "a", expiry := 1000 } ∧
    (runMain (FetchResult.ok { accessToken := "a", expiry := 1000 })
        (FetchResult.tokenErr "boom" :: [])).armed = [] ∧
    runMain (FetchResult.ok { accessToken := "a", expiry := 1000 })
        (FetchResult.tokenErr "boom" :: [])
      = runMain (FetchResult.ok { accessToken := "a", expiry := 1000 })
        [FetchResult.tokenErr "boom"]) :=
  ⟨rfl, c1_failed_refresh_keeps_token_no_retry
    { accessToken := "a", expiry := 1000 } (FetchResult.tokenErr "boom") [] rfl⟩

/-- C2: after every successful refresh — the initial one, or one triggered
by the armed timer firing — exactly one new refresh timer is armed, and its
deadline is the new token's expiry minus the fixed five-minute safety
margin; the refresh goroutine sleeps until exactly that deadline (firing
the armed timer is the only way a further refresh is attempted). -/
theorem c2_refresh_arms_timer_at_expiry_minus_margin (t : Token)
    (r0 : FetchResult) (fires : List FetchResult)
    (h : (runMain r0 fires).armed ≠ []) :
    (runMain (FetchResult.ok t) []).armed = [t.expiry - safetyMargin] ∧
    (runMain r0 (fires ++ [FetchResult.ok t])).armed = [t.expiry - safetyMargin] := by
  exact ⟨by simp [runMain, refreshCredentials, initialState],
         fire_ok_on_armed r0 fires t h⟩

theorem c2_refresh_arms_timer_at_expiry_minus_margin_witness :
    (runMain (FetchResult.ok { accessToken := "b", expiry := 500 }) []).armed ≠ [] ∧
    ((runMain (FetchResult.ok { accessToken := "a", expiry := 1000 }) []).armed
        = [({ accessToken := "a", expiry := 1000 } : Token).expiry - safetyMargin] ∧
    (runMain (FetchResult.ok { accessToken := "b", expiry := 500 })
        ([] ++ [FetchResult.ok { accessToken := "a", expiry := 1000 }])).armed
        = [({ accessToken := "a", expiry := 1000 } : Token).expiry - safetyMargin]) := by
  have h : (runMain (FetchResult.ok { accessToken := "b", expiry := 500 }) []).armed ≠ [] := by
    decide
  exact ⟨h, c2_refresh_arms_timer_at_expiry_minus_margin
    { accessToken := "a", expiry := 1000 } (FetchResult.ok { accessToken := "b", expiry := 500 }) [] h⟩

/-- C3: a request handler reading the shared credential cell at any point
of the run (after any prefix of the refresh activity — the install is a
single atomic assignment, so reads interleave only between steps) observes
a credential string and an expiry that both come from one single
successfully fetched token: never the string of one token paired with the
expiry of another. -/
theorem c3_no_torn_read (r0 : FetchResult) (fires : List FetchResult) (k : Nat)
    (cred : String) (expi : Int)
    (h : observe (runMain r0 (fires.take k)) = some (cred, expi)) :
    ∃ t, t ∈ okTokens (r0 :: fires.take k) ∧
      cred = t.accessToken ∧ expi = t.expiry := by
  unfold observe runMain at h
  rcases foldl_fireStep_okTokens (fires.take k) (refreshCredentials initialState r0).1
    with hsame | ⟨t, hmem, heq⟩
  · rw [hsame] at h
    cases r0 with
    | credsErr m => simp [refreshCredentials, initialState] at h
    | tokenErr m => simp [refreshCredentials, initialState] at h
    | ok t =>
        simp [refreshCredentials, initialState] at h
        exact ⟨t, by simp [okTokens], h.1.symm, h.2.symm⟩
  · rw [heq] at h
    simp at h
    exact ⟨t, okTokens_cons_mem r0 _ t hmem, h.1.symm, h.2.symm⟩

theorem c3_no_torn_read_witness :
    observe (runMain (FetchResult.ok { accessToken := "a", expiry := 1000 })
        (List.take 0 [])) = some ("a", 1000) ∧
    ∃ t, t ∈ okTokens (FetchResult.ok { accessToken := "a", expiry := 1000 }
        :: List.take 0 ([] : List FetchResult)) ∧
      "a" = t.accessToken ∧ (1000 : Int) = t.expiry :=
  ⟨rfl, c3_no_torn_read (FetchResult.ok { accessToken := "a", expiry := 1000 }) [] 0 "a" 1000 rfl⟩

/-- C4: in every state reachable after a successful initialize the shared
cell holds some Token (never none); and a failed refresh leaves the whole
server state — in particular the installed Token — exactly as it was, both
at the `refreshCredentials` level and across a timer firing. -/
theorem c4_token_never_absent_after_init (t0 : Token) (fires : List FetchResult)
    (st : CredState) (r : FetchResult) (h : r.failed = true) :
    (∃ t, currentToken (runMain (FetchResult.ok t0) fires) = some t) ∧
    (refreshCredentials st r).1 = st ∧
    currentToken (fireStep st r) = currentToken st := by
  refine ⟨?_, refreshCredentials_failed st r h, ?_⟩
  · have hs := foldl_fireStep_isSome fires
      (refreshCredentials initialState (FetchResult.ok t0)).1 (by rfl)
    exact Option.isSome_iff_exists.mp hs
  · cases harm : st.armed with
    | nil => rw [fireStep_armed_nil st r harm]
    | cons d rest =>
        show (fireStep st r).credential = st.credential
        simp [fireStep, harm, refreshCredentials_failed _ r h]

theorem c4_token_never_absent_after_init_witness :
    (FetchResult.credsErr "down").failed = true ∧
    ((∃ t, currentToken (runMain (FetchResult.ok { accessToken := "a", expiry := 1000 })
        [FetchResult.credsErr "down"]) = some t) ∧
    (refreshCredentials initialState (FetchResult.credsErr "down")).1 = initialState ∧
    currentToken (fireStep initialState (FetchResult.credsErr "down"))
      = currentToken initialState) :=
  ⟨rfl, c4_token_never_absent_after_init { accessToken := "a", expiry := 1000 }
    [FetchResult.credsErr "down"] initialState (FetchResult.credsErr "down") rfl⟩

/-- C5: when the initial synchronous credential acquisition fails, `main`
performs exactly the fatal exit carrying the wrapped error — the routes are
never installed and the listening port is never bound. -/
theorem c5_startup_failure_is_fatal (r0 : FetchResult) (e : String)
    (h : (refreshCredentials initialState r0).2 = some e) :
    mainProgram r0 = [MainAction.fatalExit ("Failed to initialize credentials: " ++ e)] ∧
    MainAction.routesInstalled ∉ mainProgram r0 ∧
    ∀ addr, MainAction.listen addr ∉ mainProgram r0 := by
  cases r0 with
  | credsErr m =>
      simp [refreshCredentials, initialState] at h
      subst h
      refine ⟨rfl, ?_, ?_⟩
      · simp [mainProgram, refreshCredentials, initialState]
      · intro addr
        simp [mainProgram, refreshCredentials, initialState]
  | tokenErr m =>
      simp [refreshCredentials, initialState] at h
      subst h
      refine ⟨rfl, ?_, ?_⟩
      · simp [mainProgram, refreshCredentials, initialState]
      · intro addr
        simp [mainProgram, refreshCredentials, initialState]
  | ok t => simp [refreshCredentials, initialState] at h

theorem c5_startup_failure_is_fatal_witness :
    (refreshCredentials initialState (FetchResult.credsErr "no adc")).2
      = some "failed to get credentials: no adc" ∧
    (mainProgram (FetchResult.credsErr "no adc")
      = [MainAction.fatalExit
          ("Failed to initialize credentials: " ++ "failed to get credentials: no adc")] ∧
    MainAction.routesInstalled ∉ mainProgram (FetchResult.credsErr "no adc") ∧
    ∀ addr, MainAction.listen addr ∉ mainProgram (FetchResult.credsErr "no adc")) :=
  ⟨rfl, c5_startup_failure_is_fatal (FetchResult.credsErr "no adc")
    "failed to get credentials: no adc" rfl⟩

/-- C6: in every reachable state at most one refresh timer is armed; and a
successful refresh (which can only be triggered by the single armed timer
having fired, hence disarmed) leaves exactly the one newly armed timer —
no prior timer remains armed alongside it. -/
theorem c6_at_most_one_armed_timer (r0 : FetchResult) (fires : List FetchResult)
    (t : Token) :
    (runMain r0 fires).armed.length ≤ 1 ∧
    ((runMain r0 fires).armed ≠ [] →
      (runMain r0 (fires ++ [FetchResult.ok t])).armed = [t.expiry - safetyMargin]) := by
  exact ⟨runMain_armed_length r0 fires, fire_ok_on_armed r0 fires t⟩

theorem c6_at_most_one_armed_timer_witness :
    (runMain (FetchResult.ok { accessToken := "b", expiry := 500 }) []).armed.length ≤ 1 ∧
    (runMain (FetchResult.ok { accessToken := "b", expiry := 500 })
        ([] ++ [FetchResult.ok { accessToken := "a", expiry := 1000 }])).armed
      = [({ accessToken := "a", expiry := 1000 } : Token).expiry - safetyMargin] := by
  have h := c6_at_most_one_armed_timer (FetchResult.ok { accessToken := "b", expiry := 500 })
    [] { accessToken := "a", expiry := 1000 }
  exact ⟨h.1, h.2 (by decide)⟩

/-- C7: whatever model identifier the caller supplied in a well-formed
chat-completion request (e.g. `gpt-4`), the handler sends exactly one
request upstream and its model field is `google/gemini-2.0-flash-001`. -/
theorem c7_model_override (req : ChatCompletionRequest)
    (upstream : ChatCompletionRequest → Except String ChatCompletionResponse) :
    (handleChatCompletions (Except.ok req) upstream).upstreamCalls.map
        (fun c => c.model) = ["google/gemini-2.0-flash-001"] := by
  cases h : upstream { req with model := upstreamModel } <;>
    simp [handleChatCompletions, h] <;> rfl

/-- C9: a well-formed request whose upstream call fails gets exactly one
HTTP 500 reply whose JSON body carries the upstream error message, with the
upstream call having been issued exactly once and never retried; on
upstream success the response is relayed unchanged with HTTP 200, again
after exactly one upstream call. -/
theorem c9_upstream_failure_and_success_relay (req : ChatCompletionRequest)
    (upstream : ChatCompletionRequest → Except String ChatCompletionResponse)
    (e : String) (resp : ChatCompletionResponse) :
    (upstream { req with model := upstreamModel } = Except.error e →
      handleChatCompletions (Except.ok req) upstream =
        { upstreamCalls := [{ req with model := upstreamModel }]
          reply := { status := 500, body := ChatBody.errObj e } }) ∧
    (upstream { req with model := upstreamModel } = Except.ok resp →
      handleChatCompletions (Except.ok req) upstream =
        { upstreamCalls := [{ req with model := upstreamModel }]
          reply := { status := 200, body := ChatBody.completion resp } }) := by
  constructor <;> intro h <;> simp [handleChatCompletions, h]

/-- A sample well-formed inbound request used by the concrete witnesses. -/
def sampleRequest : ChatCompletionRequest :=
  { model := "gpt-4"
    messages := [{ role := "user", content := "hello", name := "" }]
    maxTokens := 16
    temperature := 1
    topP := 1
    n := 1
    stream := false
    stop := []
    user := "caller" }

/-- A sample upstream response used by the concrete witnesses. -/
def sampleResponse : ChatCompletionResponse :=
  { id := "resp-1"
    object := "chat.completion"
    created := 1706745600
    model := "google/gemini-2.0-flash-001"
    choices := [{ index := 0
                  message := { role := "assistant", content := "hi", name := "" }
                  finishReason := "stop" }]
    usage := { promptTokens := 1, completionTokens := 1, totalTokens := 2 } }

theorem c9_upstream_failure_and_success_relay_witness :
    handleChatCompletions (Except.ok sampleRequest) (fun _ => Except.error "upstream down") =
      { upstreamCalls := [{ sampleRequest with model := upstreamModel }]
        reply := { status := 500, body := ChatBody.errObj "upstream down" } } ∧
    handleChatCompletions (Except.ok sampleRequest) (fun _ => Except.ok sampleResponse) =
      { upstreamCalls := [{ sampleRequest with model := upstreamModel }]
        reply := { status := 200, body := ChatBody.completion sampleResponse } } :=
  ⟨(c9_upstream_failure_and_success_relay sampleRequest
      (fun _ => Except.error "upstream down") "upstream down" sampleResponse).1 rfl,
   (c9_upstream_failure_and_success_relay sampleRequest
      (fun _ => Except.ok sampleResponse) "upstream down" sampleResponse).2 rfl⟩

/-- C10: every request the handler sends upstream agrees with the parsed
inbound request on every field except the model field, which is set to the
fixed upstream identifier — the handler mutates nothing else. -/
theorem c10_only_model_field_mutated (req : ChatCompletionRequest)
    (upstream : ChatCompletionRequest → Except String ChatCompletionResponse) :
    ∀ call ∈ (handleChatCompletions (Except.ok req) upstream).upstreamCalls,
      call.messages = req.messages ∧ call.maxTokens = req.maxTokens ∧
      call.temperature = req.temperature ∧ call.topP = req.topP ∧
      call.n = req.n ∧ call.stream = req.stream ∧ call.stop = req.stop ∧
      call.user = req.user ∧ call.model = upstreamModel := by
  intro call hcall
  cases h : upstream { req with model := upstreamModel } <;>
    simp [handleChatCompletions, h] at hcall <;> subst hcall <;> simp

theorem c10_only_model_field_mutated_witness :
    { sampleRequest with model := upstreamModel }.messages = sampleRequest.messages ∧
    { sampleRequest with model := upstreamModel }.maxTokens = sampleRequest.maxTokens ∧
    { sampleRequest with model := upstreamModel }.temperature = sampleRequest.temperature ∧
    { sampleRequest with model := upstreamModel }.topP = sampleRequest.topP ∧
    { sampleRequest with model := upstreamModel }.n = sampleRequest.n ∧
    { sampleRequest with model := upstreamModel }.stream = sampleRequest.stream ∧
    { sampleRequest with model := upstreamModel }.stop = sampleRequest.stop ∧
    { sampleRequest with model := upstreamModel }.user = sampleRequest.user ∧
    { sampleRequest with model := upstreamModel }.model = upstreamModel :=
  c10_only_model_field_mutated sampleRequest (fun _ => Except.error "upstream down")
    { sampleRequest with model := upstreamModel }
    (by simp [handleChatCompletions])


/-! ### The routing layer for the model endpoints

The routes of `setupRoutes` are served through the gin router (a dependency,
not code of this repository).  Its documented matching semantics for the
one feature the routes use: a `:param` wildcard in a route pattern matches
exactly one slash-separated path segment, so a captured parameter never
contains a slash, and a request whose path matches no registered route
receives gin's default 404 with no structured JSON body. -/

/-- Splits a raw character list at every `/`, accumulating the current
segment in reverse. -/
def splitSegsAux : List Char → List Char → List String
  | [], acc => [String.mk acc.reverse]
  | c :: cs, acc =>
      if c = '/' then String.mk acc.reverse :: splitSegsAux cs []
      else splitSegsAux cs (c :: acc)

/-- The slash-separated segments of an URL path (empty segments dropped). -/
def pathSegments (p : String) : List String :=
  (splitSegsAux p.data []).filter (fun s => s ≠ "")

/-- Whether a route-pattern segment is a `:param` wildcard. -/
def isParamSeg (s : String) : Bool :=
  match s.data with
  | c :: _ => c = ':'
  | [] => false

/-- The parameter name of a `:param` wildcard segment. -/
def paramName (s : String) : String := String.mk (s.data.drop 1)

/-- Segment-wise route matching, gin style: a `:param` segment captures
exactly the one path segment facing it, a literal segment must be equal,
and the segment counts must agree; returns the captured parameters. -/
def segMatch : List String → List String → Option (List (String × String))
  | [], [] => some []
  | pseg :: ps, sseg :: ss =>
      if isParamSeg pseg then
        (segMatch ps ss).map (fun caps => (paramName pseg, sseg) :: caps)
      else if pseg = sseg then segMatch ps ss
      else none
  | _, _ => none

/-- Dispatch of a GET request through the GET routes registered by
`setupRoutes`: `/v1/models` serves `handleListModels`, `/v1/models/:model`
serves `handleRetrieveModel` on the captured parameter, and an unmatched
path gets gin's default 404, represented as `none` (no handler runs and no
structured body is written). -/
def serveGET (path : String) : Option ModelsReply :=
  match segMatch (pathSegments "/v1/models") (pathSegments path) with
  | some _ => some handleListModels
  | none =>
      match segMatch (pathSegments "/v1/models/:model") (pathSegments path) with
      | some caps =>
          match caps.lookup "model" with
          | some m => some (handleRetrieveModel m)
          | none => none
      | none => none

/-- C8: refuted at the HTTP level.  The list endpoint does return exactly
the one catalog entry with id `google/gemini-2.0-flash-001`, and
`handleRetrieveModel` itself would answer that id with HTTP 200 and a
plain unknown id with the structured `model_not_found` 404 — but the
registered route `/v1/models/:model` captures exactly one slash-free path
segment, so `GET /v1/models/google/gemini-2.0-flash-001` (the only catalog
id contains a slash) matches no route and never reaches the handler: the
router answers its default 404 with no structured body, where the claim
requires HTTP 200 with the entry. -/
theorem c8_catalog_id_unreachable_via_route :
    serveGET "/v1/models" = some handleListModels ∧
    handleListModels =
      { status := 200
        body := ModelsBody.list { object := "list", data := [geminiFlash] } } ∧
    geminiFlash.id = "google/gemini-2.0-flash-001" ∧
    handleRetrieveModel "google/gemini-2.0-flash-001" =
      { status := 200, body := ModelsBody.single geminiFlash } ∧
    serveGET "/v1/models/google/gemini-2.0-flash-001" = none ∧
    serveGET "/v1/models/unknown-id" = some (handleRetrieveModel "unknown-id") ∧
    (handleRetrieveModel "unknown-id").status = 404 := by
  refine ⟨rfl, rfl, rfl, rfl, ?_, ?_, rfl⟩ <;> rfl
